import Mathlib

/-!
Shallow embedding of the GitHub-profile scraping script of this repository
(`src/app.py`): the `scrape_github` routine with its identifier validation,
fetch classification and repository extraction, the per-row batch loop, and
the GitHub Repos column of the exported CSV.

The network is modelled as an environment mapping each request URL to the
outcome of the single GET; the parsed body is modelled as the optional
repository-list container with its list entries.  BeautifulSoup's `find`
returns either a tag or Python `None`, and a found tag is always truthy
(`Tag` defines its boolean value as constantly true), so an `Option` is the
exact model of every `if elem:` test in the code.
-/

namespace App

/-- The whitespace characters removed by Python `str.strip()`
(the characters on which `str.isspace` holds). -/
def isPyWhitespace (c : Char) : Bool :=
  c = ' ' || c = '\t' || c = '\n' || c = '\r' || c = '\x0b' || c = '\x0c' ||
  c = '\x1c' || c = '\x1d' || c = '\x1e' || c = '\x1f' || c = '\x85' || c = '\xa0' ||
  c = '\u1680' || (0x2000 ≤ c.toNat && c.toNat ≤ 0x200a) ||
  c = '\u2028' || c = '\u2029' || c = '\u202f' || c = '\u205f' || c = '\u3000'

/-- Python `str.strip()` on the character list: remove leading and trailing
whitespace. -/
def pyStripL (l : List Char) : List Char :=
  (l.dropWhile isPyWhitespace).rdropWhile isPyWhitespace

/-- Python `str.strip()`. -/
def pyStrip (s : String) : String :=
  String.mk (pyStripL s.data)

/-- Python `str.lower()` on one character.  Only the ASCII range matters for
the comparisons the code performs. -/
def pyCharLower (c : Char) : Char :=
  if 'A' ≤ c && c ≤ 'Z' then Char.ofNat (c.toNat + 32) else c

/-- Python `str.lower()`. -/
def pyLower (s : String) : String :=
  String.mk (s.data.map pyCharLower)

/-- A spreadsheet cell value as `scrape_github` receives it from
`row["GitHub ID"]`: Python `None`, a not-a-number value, a string, or a
numeric cell. -/
inductive Cell where
  | pynone : Cell
  | nan : Cell
  | str : String → Cell
  | num : Int → Cell
deriving DecidableEq

/-- Python truthiness of a cell: `not x` holds exactly when `x` is falsy. -/
def pyFalsy : Cell → Bool
  | .pynone => true
  | .nan => false
  | .str s => s == ""
  | .num n => n == 0

/-- `pd.isna` on a cell. -/
def pyIsNA : Cell → Bool
  | .pynone => true
  | .nan => true
  | .str _ => false
  | .num _ => false

/-- Python `str()` conversion of a cell. -/
def pyStr : Cell → String
  | .pynone => "None"
  | .nan => "nan"
  | .str s => s
  | .num n => toString n

/-- The guard on line 22 of `app.py`: no id, not-a-number, the trimmed
lowercased text equal to "none", or trimming to the empty string. -/
def isMissing (c : Cell) : Bool :=
  pyFalsy c || pyIsNA c || pyLower (pyStrip (pyStr c)) == "none" ||
    pyStrip (pyStr c) == ""

/-- The characters of the class `[a-zA-Z0-9-]` of the validation pattern. -/
def isAllowedChar (c : Char) : Bool :=
  ('a' ≤ c && c ≤ 'z') || ('A' ≤ c && c ≤ 'Z') || ('0' ≤ c && c ≤ '9') || c = '-'

/-- Python `re.match` of the anchored pattern used on line 26: one or more
allowed characters spanning the whole string, where the final anchor also
matches just before a single trailing newline. -/
def re_match_id (s : String) : Bool :=
  let core := if s.data.getLast? = some '\n' then s.data.dropLast else s.data
  !core.isEmpty && core.all isAllowedChar

/-- One normalized repository record, an item of `repo_data`. -/
structure RepositoryRecord where
  name : String
  link : String
  language : String
  description : String
deriving DecidableEq

/-- One `li` element of the repository-list container, as seen through the
lookups the code performs on it: whether its class names include "source",
and the text of each optional marker element (`none` when the element is
absent; the text is as returned by `get_text`, not yet stripped). -/
structure RepoEntry where
  source : Bool
  nameText : Option String
  languageText : Option String
  descriptionText : Option String
deriving DecidableEq

/-- The parsed body: the container `div` with id `user-repositories-list`,
when present, holds the `li` entries that `find_all` enumerates in document
order. -/
structure HtmlDoc where
  repoList : Option (List RepoEntry)
deriving DecidableEq

/-- Outcome of `requests.get` for one URL: a raised request exception with
its message, or a response carrying status code, reason text, final URL and
parsed body. -/
inductive HttpResponse where
  | exn : String → HttpResponse
  | resp : Nat → String → String → HtmlDoc → HttpResponse
deriving DecidableEq

/-- The dictionary `scrape_github` returns.  The success dictionary carries
no "error" key, modelled as `error = none`. -/
structure ScrapeResult where
  error : Option String
  count : Nat
  repos : List RepositoryRecord
deriving DecidableEq

/-- The fixed URL template of line 29 with the identifier embedded. -/
def github_url (github_id : String) : String :=
  "https://github.com/" ++ github_id ++ "?tab=repositories"

/-- Field extraction for one repository entry, lines 44 to 51 of `app.py`. -/
def extract_repo (github_id : String) (repo : RepoEntry) : RepositoryRecord :=
  let name := match repo.nameText with
    | some t => pyStrip t
    | none => "Unknown"
  let link := if name ≠ "Unknown" then
      "https://github.com/" ++ github_id ++ "/" ++ name
    else ""
  let language := match repo.languageText with
    | some t => pyStrip t
    | none => "Unknown"
  let description := match repo.descriptionText with
    | some t => pyStrip t
    | none => ""
  { name := name, link := link, language := language, description := description }

/-- The message of the HTTPError that `raise_for_status` raises for a status
in the 400 to 599 range: client error below 500, server error from 500 on,
with reason and final URL appended. -/
def http_error_msg (status : Nat) (reason url : String) : String :=
  if status < 500 then
    toString status ++ " Client Error: " ++ reason ++ " for url: " ++ url
  else
    toString status ++ " Server Error: " ++ reason ++ " for url: " ++ url

/-- Lines 34 to 53 of `app.py`: `raise_for_status` (an HTTPError becomes a
network-error result through the first except clause), then parse, locate
the container, and extract each source entry. -/
def handle_response (github_id : String) (r : HttpResponse) : ScrapeResult :=
  match r with
  | .exn msg => { error := some ("Network error: " ++ msg), count := 0, repos := [] }
  | .resp status reason url body =>
    if 400 ≤ status ∧ status < 600 then
      { error := some ("Network error: " ++ http_error_msg status reason url),
        count := 0, repos := [] }
    else
      match body.repoList with
      | none => { error := some "No repositories found", count := 0, repos := [] }
      | some entries =>
        let repo_data := (entries.filter fun e => e.source).map (extract_repo github_id)
        { error := none, count := repo_data.length, repos := repo_data }

/-- The str of the AttributeError raised by calling `.strip()` on a
non-string cell on line 25 (the numeric case is a Python int cell). -/
def strip_attr_msg : Cell → String
  | .pynone => "\x27NoneType\x27 object has no attribute \x27strip\x27"
  | .nan => "\x27float\x27 object has no attribute \x27strip\x27"
  | .str _ => ""
  | .num _ => "\x27int\x27 object has no attribute \x27strip\x27"

/-- Lines 21 to 57 of `app.py`: validate, fetch and classify for one cell.
`net` gives the response the single GET would receive at each request URL.
For a non-string cell that passes the guard, line 25 raises an
AttributeError, which only the generic except clause catches. -/
def scrape_github (github_id : Cell) (net : String → HttpResponse) : ScrapeResult :=
  if isMissing github_id then
    { error := some "No GitHub ID provided", count := 0, repos := [] }
  else
    match github_id with
    | Cell.str s =>
      let gid := pyStrip s
      if re_match_id gid = false then
        { error := some "Invalid GitHub ID format", count := 0, repos := [] }
      else
        handle_response gid (net (github_url gid))
    | c => { error := some ("Scraping error: " ++ strip_attr_msg c), count := 0, repos := [] }

/-- A cleaned input row: First Name, Last Name, GitHub ID. -/
structure InputRow where
  firstName : String
  lastName : String
  githubId : Cell

/-- `process_row`, lines 60 to 66: the per-user cache is cleared before
every call and never read, so it has no observable effect; only the scrape
remains. -/
def process_row (row : InputRow) (net : String → HttpResponse) : ScrapeResult :=
  scrape_github row.githubId net

/-- The row boundary of the batch loop, lines 108 to 120: a normally
returned result is kept, and any exception escaping the row is converted to
the fixed processing-error dictionary. -/
def row_outcome (r : Except String ScrapeResult) : ScrapeResult :=
  match r with
  | .ok res => res
  | .error _ => { error := some "Processing error", count := 0, repos := [] }

/-- The batch loop, lines 105 to 121: one appended result per row, in input
order; `p` is the possibly-raising computation the try block runs on one
row. -/
def process_batch (p : InputRow → Except String ScrapeResult)
    (rows : List InputRow) : List ScrapeResult :=
  rows.map fun row => row_outcome (p row)

/-- A Python value as placed in a dataframe cell of the export. -/
inductive PyVal where
  | int : Nat → PyVal
  | str : String → PyVal
deriving DecidableEq

/-- Truthiness of `.get("error")` on the result dictionary: falsy when the
key is absent or when the message is the empty string. -/
def error_falsy : Option String → Bool
  | none => true
  | some s => s == ""

/-- The GitHub Repos cell of the exported dataframe, line 165 of `app.py`:
the count when the error key is falsy, the error message otherwise. -/
def github_repos_cell (r : ScrapeResult) : PyVal :=
  if error_falsy r.error then PyVal.int r.count else PyVal.str (r.error.getD "")

/-- The text `to_csv` writes for one cell: the `str()` of the value. -/
def csv_cell_text : PyVal → String
  | .int n => toString n
  | .str s => s

/-- A fixed environment used to instantiate theorems at concrete inputs. -/
def net0 : String → HttpResponse :=
  fun _ => HttpResponse.exn "connection refused"

/-- A fixed succeeding environment: a 200 response whose container is
present and empty. -/
def net200 : String → HttpResponse :=
  fun u => HttpResponse.resp 200 "OK" u { repoList := some [] }

/-! Helper lemmas about stripping and the validation pattern. -/

/-- The last character of a stripped character list never satisfies the
whitespace predicate. -/
theorem pyStripL_getLast_not_ws (l : List Char) (c : Char)
    (h : (pyStripL l).getLast? = some c) : isPyWhitespace c = false := by
  have hne : pyStripL l ≠ [] := by
    intro hnil
    rw [hnil] at h
    simp at h
  have hlast : ¬ isPyWhitespace ((pyStripL l).getLast hne) :=
    List.rdropWhile_last_not _ _ hne
  rw [List.getLast?_eq_getLast_of_ne_nil hne] at h
  have hc : (pyStripL l).getLast hne = c := by injection h
  rw [hc] at hlast
  simpa using hlast

/-- On a nonempty stripped string, the match of the anchored pattern is the
character-class test on all characters: the stripped string cannot end in a
newline, so the final anchor's newline allowance never fires. -/
theorem re_match_id_pyStrip (s : String) (h : pyStrip s ≠ "") :
    re_match_id (pyStrip s) = (pyStrip s).data.all isAllowedChar := by
  have hdata : (pyStrip s).data = pyStripL s.data := rfl
  have hne : (pyStrip s).data ≠ [] := by
    intro hnil
    exact h (String.ext hnil)
  have hlast : ¬ (pyStrip s).data.getLast? = some '\n' := by
    intro hl
    have hws := pyStripL_getLast_not_ws s.data '\n' (hdata ▸ hl)
    simp [isPyWhitespace] at hws
  simp only [re_match_id]
  rw [if_neg hlast]
  have hemp : (pyStrip s).data.isEmpty = false := by
    simpa [List.isEmpty_iff] using hne
  simp [hemp]

/-- A non-missing string cell strips to a nonempty string. -/
theorem pyStrip_ne_empty_of_not_missing (s : String)
    (h : isMissing (Cell.str s) = false) : pyStrip s ≠ "" := by
  intro hemp
  have htrue : isMissing (Cell.str s) = true := by
    simp [isMissing, pyStr, hemp]
  rw [htrue] at h
  exact Bool.noConfusion h

/-! Helper lemmas unfolding one branch of `scrape_github` each. -/

/-- The guard branch: a missing cell short-circuits to the fixed message. -/
theorem scrape_github_of_missing (c : Cell) (net : String → HttpResponse)
    (h : isMissing c = true) :
    scrape_github c net =
      { error := some "No GitHub ID provided", count := 0, repos := [] } := by
  simp [scrape_github, h]

/-- The invalid-format branch for a surviving string cell. -/
theorem scrape_github_str_invalid (s : String) (net : String → HttpResponse)
    (hm : isMissing (Cell.str s) = false)
    (hf : re_match_id (pyStrip s) = false) :
    scrape_github (Cell.str s) net =
      { error := some "Invalid GitHub ID format", count := 0, repos := [] } := by
  simp [scrape_github, hm, hf]

/-- The fetch branch for a surviving, valid string cell: the result is the
classification of the single response at the templated URL built from the
stripped identifier. -/
theorem scrape_github_str_valid (s : String) (net : String → HttpResponse)
    (hm : isMissing (Cell.str s) = false)
    (hf : re_match_id (pyStrip s) = true) :
    scrape_github (Cell.str s) net =
      handle_response (pyStrip s) (net (github_url (pyStrip s))) := by
  simp [scrape_github, hm, hf]

/-- The AttributeError branch for a surviving numeric cell. -/
theorem scrape_github_num (n : Int) (net : String → HttpResponse)
    (h : isMissing (Cell.num n) = false) :
    scrape_github (Cell.num n) net =
      { error := some ("Scraping error: " ++ strip_attr_msg (Cell.num n)),
        count := 0, repos := [] } := by
  simp [scrape_github, h]

/-- Appending to a nonempty string yields a nonempty string. -/
theorem string_append_ne_empty (a b : String) (h : a.data ≠ []) :
    a ++ b ≠ "" := by
  intro hab
  have hdata : a.data ++ b.data = ([] : List Char) := congrArg String.data hab
  exact h (List.append_eq_nil.mp hdata).1

/-- Exhaustive shape of every value `scrape_github` can return: an error
dictionary with count zero, empty list and one of the five message forms, or
a success dictionary whose count is the length of its list. -/
theorem scrape_github_shape (c : Cell) (net : String → HttpResponse) :
    (∃ msg, scrape_github c net = { error := some msg, count := 0, repos := [] } ∧
        (msg = "No GitHub ID provided" ∨ msg = "Invalid GitHub ID format" ∨
         (∃ t, msg = "Network error: " ++ t) ∨ msg = "No repositories found" ∨
         (∃ t, msg = "Scraping error: " ++ t))) ∨
    (∃ rs, scrape_github c net = { error := none, count := rs.length, repos := rs }) := by
  by_cases hm : isMissing c = true
  · exact Or.inl ⟨_, scrape_github_of_missing c net hm, Or.inl rfl⟩
  · have hm' : isMissing c = false := by simpa using hm
    cases c with
    | pynone => simp [isMissing, pyFalsy] at hm'
    | nan => simp [isMissing, pyFalsy, pyIsNA] at hm'
    | num n =>
      exact Or.inl ⟨_, scrape_github_num n net hm', Or.inr (Or.inr (Or.inr (Or.inr ⟨_, rfl⟩)))⟩
    | str s =>
      by_cases hf : re_match_id (pyStrip s) = true
      · rw [scrape_github_str_valid s net hm' hf]
        cases hr : net (github_url (pyStrip s)) with
        | exn m =>
          exact Or.inl ⟨"Network error: " ++ m, by simp [handle_response],
            Or.inr (Or.inr (Or.inl ⟨m, rfl⟩))⟩
        | resp st reason url body =>
          by_cases hst : 400 ≤ st ∧ st < 600
          · exact Or.inl ⟨"Network error: " ++ http_error_msg st reason url,
              by simp [handle_response, hst],
              Or.inr (Or.inr (Or.inl ⟨http_error_msg st reason url, rfl⟩))⟩
          · cases hb : body.repoList with
            | none =>
              exact Or.inl ⟨"No repositories found", by simp [handle_response, hst, hb],
                Or.inr (Or.inr (Or.inr (Or.inl rfl)))⟩
            | some entries =>
              exact Or.inr ⟨(entries.filter fun e => e.source).map (extract_repo (pyStrip s)),
                by simp [handle_response, hst, hb]⟩
      · have hf' : re_match_id (pyStrip s) = false := by simpa using hf
        exact Or.inl ⟨_, scrape_github_str_invalid s net hm' hf', Or.inr (Or.inl rfl)⟩

/-- Every error message `scrape_github` produces is a nonempty string. -/
theorem scrape_github_error_ne_empty (c : Cell) (net : String → HttpResponse)
    (msg : String) (h : (scrape_github c net).error = some msg) : msg ≠ "" := by
  rcases scrape_github_shape c net with ⟨m, heq, hcls⟩ | ⟨rs, heq⟩
  · rw [heq] at h
    have hm : m = msg := by injection h
    subst hm
    rcases hcls with h1 | h1 | ⟨t, h1⟩ | h1 | ⟨t, h1⟩ <;> subst h1
    · intro hx; simp at hx
    · intro hx; simp at hx
    · exact string_append_ne_empty _ _ (by intro hx; simp at hx)
    · intro hx; simp at hx
    · exact string_append_ne_empty _ _ (by intro hx; simp at hx)
  · rw [heq] at h
    simp at h

/-- C1: for every repository list entry extracted, the four fields are
filled independently with explicit fallbacks: the name is the stripped text
of the name element, or "Unknown" when that element is missing; the link is
the profile URL built from the identifier and the name exactly when the name
is not "Unknown", and the empty string otherwise; the language is the
stripped text of the language element, or "Unknown" when missing; the
description is the stripped text of the description element, or the empty
string when missing. -/
theorem extract_fields_spec (github_id : String) (e : RepoEntry) :
    (∀ t, e.nameText = some t → (extract_repo github_id e).name = pyStrip t) ∧
    (e.nameText = none → (extract_repo github_id e).name = "Unknown") ∧
    ((extract_repo github_id e).link =
      if (extract_repo github_id e).name ≠ "Unknown" then
        "https://github.com/" ++ github_id ++ "/" ++ (extract_repo github_id e).name
      else "") ∧
    (∀ t, e.languageText = some t → (extract_repo github_id e).language = pyStrip t) ∧
    (e.languageText = none → (extract_repo github_id e).language = "Unknown") ∧
    (∀ t, e.descriptionText = some t → (extract_repo github_id e).description = pyStrip t) ∧
    (e.descriptionText = none → (extract_repo github_id e).description = "") := by
  rcases e with ⟨src, nt, lt, dt⟩
  cases nt <;> cases lt <;> cases dt <;> simp [extract_repo]

/-- Witness for C1: one entry with every marker present, one with the name
marker absent. -/
theorem extract_fields_spec_witness :
    (extract_repo "octocat" { source := true, nameText := some " Hello-World ",
                              languageText := some " Python ",
                              descriptionText := some " demo " }).name
      = "Hello-World" ∧
    (extract_repo "octocat" { source := true, nameText := none,
                              languageText := none,
                              descriptionText := none }).name = "Unknown" := by
  constructor
  · have h := (extract_fields_spec "octocat"
      { source := true, nameText := some " Hello-World ",
                        languageText := some " Python ",
                        descriptionText := some " demo " }).1 " Hello-World " rfl
    rw [h]
    rfl
  · exact (extract_fields_spec "octocat"
      { source := true, nameText := none, languageText := none,
                        descriptionText := none }).2.1 rfl

/-- C2: for every non-missing string input, a stripped value containing a
character outside the allowed class yields the invalid-format error with
count zero, no network call and no crash, and a stripped value made only of
allowed characters passes validation, with the stripped string embedded
unchanged in the fetch URL. -/
theorem validate_format_spec (s : String) (net net2 : String → HttpResponse)
    (hmiss : isMissing (Cell.str s) = false) :
    ((pyStrip s).data.any (fun c => !isAllowedChar c) = true →
        scrape_github (Cell.str s) net =
          { error := some "Invalid GitHub ID format", count := 0, repos := [] } ∧
        scrape_github (Cell.str s) net = scrape_github (Cell.str s) net2) ∧
    ((pyStrip s).data.all isAllowedChar = true →
        scrape_github (Cell.str s) net =
          handle_response (pyStrip s) (net (github_url (pyStrip s)))) := by
  have hne := pyStrip_ne_empty_of_not_missing s hmiss
  have hre := re_match_id_pyStrip s hne
  constructor
  · intro hany
    have hall : (pyStrip s).data.all isAllowedChar = false := by
      rcases List.any_eq_true.mp hany with ⟨x, hx, hnx⟩
      cases hall : (pyStrip s).data.all isAllowedChar with
      | false => rfl
      | true =>
        have hx' := List.all_eq_true.mp hall x hx
        simp [hx'] at hnx
    have hf : re_match_id (pyStrip s) = false := by rw [hre, hall]
    refine ⟨scrape_github_str_invalid s net hmiss hf, ?_⟩
    rw [scrape_github_str_invalid s net hmiss hf,
      scrape_github_str_invalid s net2 hmiss hf]
  · intro hall
    exact scrape_github_str_valid s net hmiss (by rw [hre, hall])

/-- Witness for C2: a stripped value with a space and a bang is rejected as
invalid format; a plain identifier reaches the fetch with the stripped
string in the URL. -/
theorem validate_format_spec_witness :
    scrape_github (Cell.str " octo cat! ") net0 =
      { error := some "Invalid GitHub ID format", count := 0, repos := [] } ∧
    scrape_github (Cell.str " octocat ") net0 =
      handle_response "octocat" (net0 (github_url "octocat")) := by
  constructor
  · exact ((validate_format_spec " octo cat! " net0 net0 (by decide)).1 (by decide)).1
  · exact (validate_format_spec " octocat " net0 net0 (by decide)).2 (by decide)

/-- C3: every absent, empty, whitespace-only, or case-insensitively "none"
input yields the fixed missing-id message with count zero and no dependence
on the network. -/
theorem missing_id_spec (c : Cell) (net net2 : String → HttpResponse)
    (h : c = Cell.pynone ∨ c = Cell.nan ∨
        ∃ s, c = Cell.str s ∧ (pyStrip s = "" ∨ pyLower (pyStrip s) = "none")) :
    scrape_github c net =
      { error := some "No GitHub ID provided", count := 0, repos := [] } ∧
    scrape_github c net = scrape_github c net2 := by
  have hm : isMissing c = true := by
    rcases h with h | h | ⟨s, rfl, hs | hs⟩
    · subst h; simp [isMissing, pyFalsy]
    · subst h; simp [isMissing, pyFalsy, pyIsNA]
    · simp [isMissing, pyStr, hs]
    · simp [isMissing, pyStr, hs]
  rw [scrape_github_of_missing c net hm, scrape_github_of_missing c net2 hm]
  exact ⟨rfl, rfl⟩

/-- Witness for C3 at a padded mixed-case "none" cell. -/
theorem missing_id_spec_witness :
    scrape_github (Cell.str "  NoNe  ") net0 =
      { error := some "No GitHub ID provided", count := 0, repos := [] } :=
  (missing_id_spec (Cell.str "  NoNe  ") net0 net0
    (Or.inr (Or.inr ⟨"  NoNe  ", rfl, Or.inr (by decide)⟩))).1

/-- Counterexample to C4 as stated: a response with the non-2xx status 304
does not raise in `raise_for_status` (which raises only for the 400 to 599
range), so the fetch proceeds to parsing and here returns the
no-repositories error, not a network error: its message does not carry the
network-error prefix. -/
theorem network_error_counterexample :
    scrape_github (Cell.str "octocat")
        (fun _ => HttpResponse.resp 304 "Not Modified" (github_url "octocat")
          { repoList := none }) =
      { error := some "No repositories found", count := 0, repos := [] } ∧
    (304 < 200 ∨ 299 < 304) ∧
    "Network error: ".data.isPrefixOf "No repositories found".data = false := by
  refine ⟨by decide, by decide, by decide⟩

/-- C4 (amended): for every request exception and for every response whose
status lies in the 400 to 599 range (the statuses `raise_for_status` raises
for; other non-2xx statuses such as 304 fall through to parsing), the fetch
returns a network-error result whose message carries the underlying cause,
with count zero; the result is determined by the single GET response. -/
theorem network_error_spec (s m reason url : String) (status : Nat)
    (body : HtmlDoc) (net net2 : String → HttpResponse)
    (hmiss : isMissing (Cell.str s) = false)
    (hfmt : (pyStrip s).data.all isAllowedChar = true) :
    (net (github_url (pyStrip s)) = HttpResponse.exn m →
        scrape_github (Cell.str s) net =
          { error := some ("Network error: " ++ m), count := 0, repos := [] }) ∧
    (net (github_url (pyStrip s)) = HttpResponse.resp status reason url body →
        400 ≤ status → status < 600 →
        scrape_github (Cell.str s) net =
          { error := some ("Network error: " ++ http_error_msg status reason url),
            count := 0, repos := [] }) ∧
    (net (github_url (pyStrip s)) = net2 (github_url (pyStrip s)) →
        scrape_github (Cell.str s) net = scrape_github (Cell.str s) net2) := by
  have hne := pyStrip_ne_empty_of_not_missing s hmiss
  have hf : re_match_id (pyStrip s) = true := by
    rw [re_match_id_pyStrip s hne, hfmt]
  have hval := scrape_github_str_valid s net hmiss hf
  refine ⟨?_, ?_, ?_⟩
  · intro hr
    rw [hval, hr]
    rfl
  · intro hr h4 h6
    rw [hval, hr]
    simp [handle_response, h4, h6]
  · intro hsame
    rw [hval, hsame, scrape_github_str_valid s net2 hmiss hf]

/-- Witness for C4 (amended): a connection failure and a crafted 404
response, both at a concrete identifier. -/
theorem network_error_spec_witness :
    scrape_github (Cell.str "octocat") net0 =
      { error := some "Network error: connection refused", count := 0, repos := [] } ∧
    scrape_github (Cell.str "octocat")
        (fun _ => HttpResponse.resp 404 "Not Found" (github_url "octocat")
          { repoList := none }) =
      { error := some ("Network error: " ++
          http_error_msg 404 "Not Found" (github_url "octocat")),
        count := 0, repos := [] } := by
  constructor
  · exact (network_error_spec "octocat" "connection refused" "" "" 0
      { repoList := none } net0 net0 (by decide) (by decide)).1 rfl
  · exact ((network_error_spec "octocat" "" "Not Found" (github_url "octocat") 404
      { repoList := none }
      (fun _ => HttpResponse.resp 404 "Not Found" (github_url "octocat")
        { repoList := none })
      net0 (by decide) (by decide)).2.1 rfl (by decide) (by decide))

/-- C5: for every string identifier that reaches the fetch and every 2xx
response whose parsed body has no repository-list container, the result is
the fixed no-repositories error with count zero — an error dictionary, not
a success and not a crash. -/
theorem no_repos_found_spec (s reason url : String) (status : Nat)
    (net : String → HttpResponse)
    (hmiss : isMissing (Cell.str s) = false)
    (hfmt : (pyStrip s).data.all isAllowedChar = true)
    (hresp : net (github_url (pyStrip s)) =
        HttpResponse.resp status reason url { repoList := none })
    (h2xx : 200 ≤ status ∧ status < 300) :
    scrape_github (Cell.str s) net =
      { error := some "No repositories found", count := 0, repos := [] } := by
  have hne := pyStrip_ne_empty_of_not_missing s hmiss
  have hf : re_match_id (pyStrip s) = true := by
    rw [re_match_id_pyStrip s hne, hfmt]
  rw [scrape_github_str_valid s net hmiss hf, hresp]
  have hst : ¬ (400 ≤ status ∧ status < 600) := by omega
  simp [handle_response, hst]

/-- Witness for C5 at a 200 response without the container. -/
theorem no_repos_found_spec_witness :
    scrape_github (Cell.str "octocat")
        (fun _ => HttpResponse.resp 200 "OK" (github_url "octocat")
          { repoList := none }) =
      { error := some "No repositories found", count := 0, repos := [] } :=
  no_repos_found_spec "octocat" "OK" (github_url "octocat") 200
    (fun _ => HttpResponse.resp 200 "OK" (github_url "octocat") { repoList := none })
    (by decide) (by decide) rfl (by decide)

/-- C6: for every 2xx response whose body has the container, the result is a
success (not an error) whose records are exactly the source-marked entries
in document order, each extracted independently — so zero source entries
give the empty success with count zero, non-source entries are skipped, and
no sorting or deduplication happens. -/
theorem extract_container_spec (s reason url : String) (status : Nat)
    (entries : List RepoEntry) (net : String → HttpResponse)
    (hmiss : isMissing (Cell.str s) = false)
    (hfmt : (pyStrip s).data.all isAllowedChar = true)
    (hresp : net (github_url (pyStrip s)) =
        HttpResponse.resp status reason url { repoList := some entries })
    (h2xx : 200 ≤ status ∧ status < 300) :
    scrape_github (Cell.str s) net =
      { error := none,
        count := ((entries.filter fun e => e.source).map (extract_repo (pyStrip s))).length,
        repos := (entries.filter fun e => e.source).map (extract_repo (pyStrip s)) } ∧
    ((entries.filter fun e => e.source) = [] →
        scrape_github (Cell.str s) net = { error := none, count := 0, repos := [] }) := by
  have hne := pyStrip_ne_empty_of_not_missing s hmiss
  have hf : re_match_id (pyStrip s) = true := by
    rw [re_match_id_pyStrip s hne, hfmt]
  have hval : scrape_github (Cell.str s) net =
      { error := none,
        count := ((entries.filter fun e => e.source).map (extract_repo (pyStrip s))).length,
        repos := (entries.filter fun e => e.source).map (extract_repo (pyStrip s)) } := by
    rw [scrape_github_str_valid s net hmiss hf, hresp]
    have hst : ¬ (400 ≤ status ∧ status < 600) := by omega
    simp [handle_response, hst]
  refine ⟨hval, fun hempty => ?_⟩
  rw [hval, hempty]
  rfl

/-- Witness for C6: a container holding a fork entry (skipped), and twice
the same source entry (two records, no deduplication), at a 200 response;
and a container with no source entries at all (empty success). -/
theorem extract_container_spec_witness :
    scrape_github (Cell.str "octocat")
        (fun _ => HttpResponse.resp 200 "OK" (github_url "octocat")
          { repoList := some
              [{ source := false, nameText := some "fork-repo",
                                  languageText := none, descriptionText := none },
               { source := true, nameText := some "dup",
                                 languageText := none, descriptionText := none },
               { source := true, nameText := some "dup",
                                 languageText := none, descriptionText := none }] }) =
      { error := none, count := 2,
        repos := [{ name := "dup", link := "https://github.com/octocat/dup",
                    language := "Unknown", description := "" },
                  { name := "dup", link := "https://github.com/octocat/dup",
                    language := "Unknown", description := "" }] } ∧
    scrape_github (Cell.str "octocat")
        (fun _ => HttpResponse.resp 200 "OK" (github_url "octocat")
          { repoList := some [{ source := false, nameText := some "fork-repo",
                                                 languageText := none,
                                                 descriptionText := none }] }) =
      { error := none, count := 0, repos := [] } := by
  constructor
  · have h := (extract_container_spec "octocat" "OK" (github_url "octocat") 200
      [{ source := false, nameText := some "fork-repo",
                          languageText := none, descriptionText := none },
       { source := true, nameText := some "dup",
                         languageText := none, descriptionText := none },
       { source := true, nameText := some "dup",
                         languageText := none, descriptionText := none }]
      (fun _ => HttpResponse.resp 200 "OK" (github_url "octocat")
        { repoList := some
            [{ source := false, nameText := some "fork-repo",
                                languageText := none, descriptionText := none },
             { source := true, nameText := some "dup",
                               languageText := none, descriptionText := none },
             { source := true, nameText := some "dup",
                               languageText := none, descriptionText := none }] })
      (by decide) (by decide) rfl (by decide)).1
    rw [h]
    rfl
  · exact (extract_container_spec "octocat" "OK" (github_url "octocat") 200
      [{ source := false, nameText := some "fork-repo",
                          languageText := none, descriptionText := none }]
      (fun _ => HttpResponse.resp 200 "OK" (github_url "octocat")
        { repoList := some [{ source := false, nameText := some "fork-repo",
                                               languageText := none,
                                               descriptionText := none }] })
      (by decide) (by decide) rfl (by decide)).2 rfl

/-- C7: every result is exactly one of success or error, never both: a
success result (no error entry) has count equal to the length of its
repository list, and an error result has count zero, an empty list, and a
message of one of the five error kinds. -/
theorem fetch_result_tagged (c : Cell) (net : String → HttpResponse) :
    ((scrape_github c net).error = none ∧
      (scrape_github c net).count = (scrape_github c net).repos.length) ∨
    ((scrape_github c net).count = 0 ∧ (scrape_github c net).repos = [] ∧
      ∃ msg, (scrape_github c net).error = some msg ∧
        (msg = "No GitHub ID provided" ∨ msg = "Invalid GitHub ID format" ∨
         (∃ t, msg = "Network error: " ++ t) ∨ msg = "No repositories found" ∨
         (∃ t, msg = "Scraping error: " ++ t))) := by
  rcases scrape_github_shape c net with ⟨msg, heq, hcls⟩ | ⟨rs, heq⟩
  · right
    rw [heq]
    exact ⟨rfl, rfl, msg, rfl, hcls⟩
  · left
    rw [heq]
    exact ⟨rfl, rfl⟩

/-- C8: for every row result, the GitHub Repos cell of the export holds the
integer count when the fetch succeeded and the error message string when it
failed, and the serialized text of the cell is the count rendered as text,
or the message, accordingly. -/
theorem csv_repos_column_spec (c : Cell) (net : String → HttpResponse) :
    ((scrape_github c net).error = none →
        github_repos_cell (scrape_github c net) = PyVal.int (scrape_github c net).count ∧
        csv_cell_text (github_repos_cell (scrape_github c net)) =
          toString (scrape_github c net).count) ∧
    (∀ msg, (scrape_github c net).error = some msg →
        github_repos_cell (scrape_github c net) = PyVal.str msg ∧
        csv_cell_text (github_repos_cell (scrape_github c net)) = msg) := by
  constructor
  · intro he
    simp [github_repos_cell, he, error_falsy, csv_cell_text]
  · intro msg he
    have hnem := scrape_github_error_ne_empty c net msg he
    have hf : error_falsy (some msg) = false := by
      simpa [error_falsy] using hnem
    simp [github_repos_cell, he, hf, csv_cell_text]

/-- Witness for C8: the missing-id row exports its message; a succeeding
call on an empty container exports its count rendered as text. -/
theorem csv_repos_column_spec_witness :
    csv_cell_text (github_repos_cell (scrape_github Cell.pynone net0)) =
      "No GitHub ID provided" ∧
    csv_cell_text (github_repos_cell (scrape_github (Cell.str "octocat") net200)) =
      "0" := by
  constructor
  · exact ((csv_repos_column_spec Cell.pynone net0).2
      "No GitHub ID provided" (by decide)).2
  · exact ((csv_repos_column_spec (Cell.str "octocat") net200).1 (by decide)).2.trans
      (by decide)

/-- C9: the batch produces exactly one result per input row and in input
order — the output list is index for index the mapped view of the input
list — a normally returned row result is propagated unchanged, and a row
whose processing raises is converted to the fixed zero-count
processing-error result, leaving every other row untouched. -/
theorem batch_rows_spec (p : InputRow → Except String ScrapeResult)
    (rows : List InputRow) :
    (process_batch p rows).length = rows.length ∧
    (∀ i : Nat, (process_batch p rows)[i]? =
        (rows[i]?.map fun row => row_outcome (p row))) ∧
    (∀ r : ScrapeResult, row_outcome (Except.ok r) = r) ∧
    (∀ e : String, row_outcome (Except.error e) =
        { error := some "Processing error", count := 0, repos := [] }) := by
  refine ⟨by simp [process_batch], fun i => ?_, fun r => rfl, fun e => rfl⟩
  simp [process_batch]

/-- C10: every numeric cell that survives the missing-value guard crashes on
the string-only strip call inside the try block and is classified as a
scraping error with count zero and no dependence on the network, not as an
invalid-format error. -/
theorem nonstring_scraping_error (n : Int) (net net2 : String → HttpResponse)
    (h : isMissing (Cell.num n) = false) :
    scrape_github (Cell.num n) net =
      { error := some ("Scraping error: " ++ strip_attr_msg (Cell.num n)),
        count := 0, repos := [] } ∧
    (scrape_github (Cell.num n) net).error ≠ some "Invalid GitHub ID format" ∧
    scrape_github (Cell.num n) net = scrape_github (Cell.num n) net2 := by
  have h1 := scrape_github_num n net h
  have h2 := scrape_github_num n net2 h
  refine ⟨h1, ?_, h1.trans h2.symm⟩
  rw [h1]
  intro hx
  have hmsg := Option.some.inj hx
  rw [show strip_attr_msg (Cell.num n) =
      "\x27int\x27 object has no attribute \x27strip\x27" from rfl] at hmsg
  exact absurd hmsg (by decide)

/-- Witness for C10 at the numeric cell 42. -/
theorem nonstring_scraping_error_witness :
    scrape_github (Cell.num 42) net0 =
      { error := some ("Scraping error: " ++ strip_attr_msg (Cell.num 42)),
        count := 0, repos := [] } :=
  (nonstring_scraping_error 42 net0 net0 (by decide)).1

end App
